import Mathlib

/-!
Verification of the Gaussian-splat projection and shading core of the
GaussianSplats3D repository. The definitions below are a shallow embedding
of the GLSL shader source built by `SplatMaterial3D.buildVertexShaderProjection`
and `SplatMaterial3D.buildFragmentShader`; machine floats are modelled by
real numbers, GLSL `discard`/early `return` by `Option.none`.
-/

namespace GaussianSplats3D

open Matrix

noncomputable section

/-- Vectors with two real components, modelling GLSL `vec2`. -/
abbrev Vec2 := ℝ × ℝ

/-- Vectors with three real components, modelling GLSL `vec3`. -/
abbrev Vec3 := ℝ × ℝ × ℝ

/-- GLSL `dot` on `vec2`. -/
def dot2 (u v : Vec2) : ℝ := u.1 * v.1 + u.2 * v.2

/-- Componentwise scaling of a `vec2` by a scalar, modelling GLSL `v * s`. -/
def scale2 (v : Vec2) (s : ℝ) : Vec2 := (v.1 * s, v.2 * s)

/-- Componentwise scaling of a `vec3` by a scalar, modelling GLSL `v * s`. -/
def scale3 (v : Vec3) (s : ℝ) : Vec3 := (v.1 * s, v.2.1 * s, v.2.2 * s)

/-- GLSL `mix(x, y, a) = x*(1-a) + y*a`, componentwise on `vec3`. -/
def mix3 (x y : Vec3) (a : ℝ) : Vec3 :=
  (x.1 * (1 - a) + y.1 * a, x.2.1 * (1 - a) + y.2.1 * a, x.2.2 * (1 - a) + y.2.2 * a)

/-- GLSL `normalize` on `vec2`: the vector divided by its euclidean length. -/
def normalize2 (v : Vec2) : Vec2 :=
  (v.1 / Real.sqrt (v.1 * v.1 + v.2 * v.2), v.2 / Real.sqrt (v.1 * v.1 + v.2 * v.2))

/-- Squared euclidean length of a `vec2` (used to compare footprint magnitudes). -/
def sqLen (v : Vec2) : ℝ := v.1 * v.1 + v.2 * v.2

/-! ## The 2x2 symmetric eigen-solve (vertex shader, lines 184-192)

The shader reads `a = cov2Dv.x`, `d = cov2Dv.z`, `b = cov2Dv.y` and solves the
symmetric 2x2 eigenproblem analytically. -/

/-- Determinant `D = a * d - b * b` of the symmetric 2x2 matrix (shader line 187). -/
def covD (a b d : ℝ) : ℝ := a * d - b * b

/-- Shader line 188: `trace = a + d`. -/
def covTrace (a d : ℝ) : ℝ := a + d

/-- Shader line 189: `traceOver2 = 0.5 * trace`. -/
def traceOver2 (a d : ℝ) : ℝ := 0.5 * covTrace a d

/-- Shader line 190: `term2 = sqrt(max(0.1f, traceOver2 * traceOver2 - D))`. -/
def term2 (a b d : ℝ) : ℝ :=
  Real.sqrt (max 0.1 (traceOver2 a d * traceOver2 a d - covD a b d))

/-- Shader line 191: `eigenValue1 = traceOver2 + term2`. -/
def eigenValue1 (a b d : ℝ) : ℝ := traceOver2 a d + term2 a b d

/-- Shader line 192: `eigenValue2 = traceOver2 - term2`. -/
def eigenValue2 (a b d : ℝ) : ℝ := traceOver2 a d - term2 a b d

/-! ## Eigenvectors, basis vectors and the point-cloud / discard branches
(vertex shader, lines 194-206) -/

/-- Modelled from the spec: the constant `sqrt8` is defined in
`SplatMaterial.buildVertexShaderBase`, which is not among the provided source
files; the spec pins it to the square root of 8 (the quad extends to sqrt 8
standard deviations). -/
def sqrt8 : ℝ := Real.sqrt 8

/-- Shader line 200: `eigenVector1 = normalize(vec2(b, eigenValue1 - a))`,
parameterized by the (possibly point-cloud-overridden) first eigenvalue `e1`. -/
def eigenVector1v (a b e1 : ℝ) : Vec2 := normalize2 (b, e1 - a)

/-- Shader line 202: `eigenVector2 = vec2(eigenVector1.y, -eigenVector1.x)`. -/
def eigenVector2v (a b e1 : ℝ) : Vec2 :=
  ((eigenVector1v a b e1).2, -(eigenVector1v a b e1).1)

/-- Shader lines 205-206: a basis vector
`eigenVector * splatScale * min(sqrt8 * sqrt(eigenValue), maxScreenSpaceSplatSize)`,
where `msss` is the numeric literal interpolated into the shader for
`maxScreenSpaceSplatSize`. -/
def basisVector (v : Vec2) (splatScale e msss : ℝ) : Vec2 :=
  scale2 (scale2 v splatScale) (min (sqrt8 * Real.sqrt e) msss)

/-- Shader lines 194-196: when `pointCloudModeEnabled == 1` both eigenvalues are
overridden with the constant `0.2`; otherwise the eigen-solve results are kept. -/
def projectedEigenvalues (pointCloudModeEnabled : Bool) (a b d : ℝ) : ℝ × ℝ :=
  if pointCloudModeEnabled then (0.2, 0.2) else (eigenValue1 a b d, eigenValue2 a b d)

/-- Shader lines 194-206: the tail of the vertex-shader projection. Starting from
the 2x2 covariance entries `a, b, d`, it applies the point-cloud override, then
returns early (emitting no quad, modelled by `none`) when `eigenValue2 <= 0`, and
otherwise produces the two screen-space basis vectors. -/
def projectBasis (pointCloudModeEnabled : Bool) (a b d splatScale msss : ℝ) :
    Option (Vec2 × Vec2) :=
  let e := projectedEigenvalues pointCloudModeEnabled a b d
  if e.2 ≤ 0 then none
  else
    some (basisVector (eigenVector1v a b e.1) splatScale e.1 msss,
          basisVector (eigenVector2v a b e.1) splatScale e.2 msss)

/-! ## The covariance projection (vertex shader, lines 114-144)

GLSL `mat3` constructors consume their nine scalar arguments in column-major
order, `m[i][j]` selects column `i`, row `j`, and `*` on matrices is the
mathematical product; the embedding below uses Mathlib matrices (indexed
row-first) and encodes the constructor order explicitly. -/

/-- GLSL `mat3(m0, ..., m8)`: the nine entries fill the matrix column by
column, so `m0 m1 m2` is the first column. -/
def glslMat3 (m0 m1 m2 m3 m4 m5 m6 m7 m8 : ℝ) : Matrix (Fin 3) (Fin 3) ℝ :=
  !![m0, m3, m6; m1, m4, m7; m2, m5, m8]

/-- Shader lines 131-136: the perspective-mode Jacobian, built with
`s = 1.0 / (viewCenter.z * viewCenter.z)` and the nine constructor arguments
exactly as the source lists them. -/
def Jpersp (fx fy vx vy vz : ℝ) : Matrix (Fin 3) (Fin 3) ℝ :=
  glslMat3 (fx / vz) 0 (-(fx * vx) * (1 / (vz * vz)))
    0 (fy / vz) (-(fy * vy) * (1 / (vz * vz)))
    0 0 0

/-- Shader lines 124-126: the orthographic-mode matrix
`transpose(mat3(orthoZoom, 0, 0, 0, orthoZoom, 0, 0, 0, 0))`. -/
def Jortho (orthoZoom : ℝ) : Matrix (Fin 3) (Fin 3) ℝ :=
  (glslMat3 orthoZoom 0 0 0 orthoZoom 0 0 0 0)ᵀ

/-- Shader lines 140-141: `W = transpose(mat3(transformModelViewMatrix))` and
`T = W * J`, with `M` the upper-left 3x3 block of the model-view matrix. -/
def Tmat (M J : Matrix (Fin 3) (Fin 3) ℝ) : Matrix (Fin 3) (Fin 3) ℝ := Mᵀ * J

/-- Shader line 144: `cov2Dm = transpose(T) * Vrk * T`. -/
def cov2Dm (M Vrk J : Matrix (Fin 3) (Fin 3) ℝ) : Matrix (Fin 3) (Fin 3) ℝ :=
  (Tmat M J)ᵀ * Vrk * Tmat M J

/-- Shader line 169: `cov2Dv = vec3(cov2Dm[0][0], cov2Dm[0][1], cov2Dm[1][1])`,
the retained upper-left 2x2 block (GLSL `m[i][j]` is column `i`, row `j`). -/
def cov2Dv (C : Matrix (Fin 3) (Fin 3) ℝ) : ℝ × ℝ × ℝ := (C 0 0, C 1 0, C 1 1)

/-- Following the words of the spec, for the refinement comparison: the
perspective Jacobian the spec displays, read in the standard row-major
convention, so that its first row is `(focal.x/viewCenter.z, 0,
-focal.x*viewCenter.x/viewCenter.z^2)`. -/
def specJpersp (fx fy vx vy vz : ℝ) : Matrix (Fin 3) (Fin 3) ℝ :=
  !![fx / vz, 0, -(fx * vx) / vz ^ 2;
     0, fy / vz, -(fy * vy) / vz ^ 2;
     0, 0, 0]

/-! ## Kernel dilation and antialiasing compensation (vertex shader, lines 147-161)

The covariance is carried as the triple `(cov2Dm[0][0], cov2Dm[0][1], cov2Dm[1][1])`
of its distinct entries; an early `return` (no quad emitted) is modelled by `none`. -/

/-- Shader lines 147-161: when the material was built with `antialiased` set, the
determinant is taken before (`detOrig`) and after (`detBlur`) adding
`kernel2DSize` to both diagonal entries, alpha is multiplied by
`sqrt(max(detOrig / detBlur, 0.0))`, and the vertex returns early when the
resulting alpha is below `minAlpha`; otherwise `kernel2DSize` is added to both
diagonal entries and alpha is left unchanged. -/
def dilateCov (antialiased : Bool) (kernel2DSize minAlpha : ℝ)
    (cov : ℝ × ℝ × ℝ) (alpha : ℝ) : Option ((ℝ × ℝ × ℝ) × ℝ) :=
  if antialiased then
    let detOrig := cov.1 * cov.2.2 - cov.2.1 * cov.2.1
    let c00 := cov.1 + kernel2DSize
    let c11 := cov.2.2 + kernel2DSize
    let detBlur := c00 * c11 - cov.2.1 * cov.2.1
    let alpha2 := alpha * Real.sqrt (max (detOrig / detBlur) 0)
    if alpha2 < minAlpha then none else some ((c00, cov.2.1, c11), alpha2)
  else some ((cov.1 + kernel2DSize, cov.2.1, cov.2.2 + kernel2DSize), alpha)

/-! ## The fragment shader (`SplatMaterial3D.buildFragmentShader`, lines 232-324) -/

/-- Snapshot of the effect uniforms read by the fragment shader. -/
structure EffectState where
  rainbowEffect : ℝ
  time : ℝ
  pulseEffect : ℝ
  pulseTime : ℝ
  glowEffect : ℝ
  invertEffect : ℝ
  positionEffect : ℝ
  positionOffset : Vec3
  positionTime : ℝ

/-- Fragment shader lines 252-260: blend the color 50/50 with a phase-shifted
sine triple driven by the elapsed effect time. -/
def applyRainbowEffect (color : Vec3) (time : ℝ) : Vec3 :=
  let hue := time
  let rainbow : Vec3 :=
    (Real.sin (hue * 6.28318) * 0.5 + 0.5,
     Real.sin ((hue + 0.333) * 6.28318) * 0.5 + 0.5,
     Real.sin ((hue + 0.666) * 6.28318) * 0.5 + 0.5)
  mix3 color rainbow 0.5

/-- Fragment shader lines 262-264: the pulse factor `sin(time) * 0.5 + 0.5`. -/
def applyPulseEffect (time : ℝ) : ℝ := Real.sin time * 0.5 + 0.5

/-- Fragment shader lines 266-268: multiply the color by the fixed gain 1.5. -/
def applyGlowEffect (color : Vec3) : Vec3 := scale3 color 1.5

/-- Fragment shader lines 270-272: `vec3(1.0) - color`. -/
def applyInvertEffect (color : Vec3) : Vec3 :=
  (1 - color.1, 1 - color.2.1, 1 - color.2.2)

/-- Fragment shader lines 275-288: perturb the local position by
`positionOffset.xy` times a square wave that alternates between `+1` and `-1`
fifteen times per time unit. -/
def applyPositionEffect (position : Vec2) (time : ℝ) (positionOffset : Vec3) : Vec2 :=
  let frequency : ℝ := 15.0
  let wave : ℝ := if Int.fract (time * frequency) < 0.5 then 1.0 else -1.0
  (position.1 + positionOffset.1 * wave, position.2 + positionOffset.2.1 * wave)

/-- The square wave `(fract(time * 15) < 0.5) ? 1.0 : -1.0` used by
`applyPositionEffect`, named so its alternation can be stated on its own. -/
def squareWave (time : ℝ) : ℝ :=
  if Int.fract (time * 15.0) < 0.5 then 1.0 else -1.0

/-- Fragment shader lines 292-295: the local coordinate after the optional
positional jitter. -/
def finalPos (st : EffectState) (vPosition : Vec2) : Vec2 :=
  if st.positionEffect > 0 then
    applyPositionEffect vPosition st.positionTime st.positionOffset
  else vPosition

/-- Fragment shader lines 302-319: the chain of the four optional color effects,
applied in the fixed order rainbow, pulse, glow, invert. -/
def colorChain (st : EffectState) (color : Vec3) : Vec3 :=
  let fc1 := if st.rainbowEffect > 0 then applyRainbowEffect color st.time else color
  let fc2 :=
    if st.pulseEffect > 0 then mix3 fc1 (scale3 fc1 (applyPulseEffect st.pulseTime)) 0.5
    else fc1
  let fc3 := if st.glowEffect > 0 then applyGlowEffect fc2 else fc2
  if st.invertEffect > 0 then applyInvertEffect fc3 else fc3

/-- Fragment shader lines 291-322: the full `main`. The pixel is discarded
(`none`) when the squared local distance exceeds 8, otherwise the effect chain
runs on the RGB components and the Gaussian alpha is emitted. -/
def fragMain (st : EffectState) (vColor : Vec3 × ℝ) (vPosition : Vec2) :
    Option (Vec3 × ℝ) :=
  let finalPosition := finalPos st vPosition
  let A := dot2 finalPosition finalPosition
  if A > 8 then none
  else some (colorChain st vColor.1, Real.exp (-0.5 * A) * vColor.2)

/-- The all-disabled effect snapshot (the startup state of the uniforms). -/
def stOff : EffectState := ⟨0, 0, 0, 0, 0, 0, 0, (0, 0, 0), 0⟩

/-- Effect snapshot with only glow and invert enabled. -/
def stGlowInvert : EffectState := ⟨0, 0, 0, 0, 1, 1, 0, (0, 0, 0), 0⟩

/-- Effect snapshot with all four color effects enabled. -/
def stAllColorFX (time pulseTime : ℝ) : EffectState :=
  ⟨1, time, 1, pulseTime, 1, 1, 0, (0, 0, 0), 0⟩

/-- The same snapshot with the four color-effect flags cleared (the jitter
settings are kept). -/
def clearColorFX (st : EffectState) : EffectState :=
  { st with rainbowEffect := 0, pulseEffect := 0, glowEffect := 0, invertEffect := 0 }

/-- Modelled from the spec: the glow transform with an explicit gain parameter
(the spec describes glow as multiplication by a fixed gain greater than 1 and
its order-sensitivity example instantiates the gain at 2; the shader itself
hard-codes the gain 1.5, see `applyGlowEffect`). -/
def glowWithGain (gain : ℝ) (color : Vec3) : Vec3 := scale3 color gain

end

/-- C2: the analytic eigen-solve computes `trace = a+d`,
`term = sqrt(max(0.1, (trace/2)^2 - (a*d - b^2)))`,
`eigenValue1 = trace/2 + term`, `eigenValue2 = trace/2 - term`,
and `eigenValue1 >= eigenValue2` holds for every symmetric input `a, b, d`. -/
theorem eigen_solve_formulas_and_order (a b d : ℝ) :
    eigenValue1 a b d =
      (a + d) / 2 + Real.sqrt (max 0.1 (((a + d) / 2) ^ 2 - (a * d - b ^ 2))) ∧
    eigenValue2 a b d =
      (a + d) / 2 - Real.sqrt (max 0.1 (((a + d) / 2) ^ 2 - (a * d - b ^ 2))) ∧
    eigenValue2 a b d ≤ eigenValue1 a b d := by
  have harg : traceOver2 a d * traceOver2 a d - covD a b d =
      ((a + d) / 2) ^ 2 - (a * d - b ^ 2) := by
    simp only [traceOver2, covTrace, covD]; ring
  have hterm : term2 a b d =
      Real.sqrt (max 0.1 (((a + d) / 2) ^ 2 - (a * d - b ^ 2))) := by
    rw [term2, harg]
  refine ⟨?_, ?_, ?_⟩
  · rw [eigenValue1, hterm, traceOver2, covTrace]; ring
  · rw [eigenValue2, hterm, traceOver2, covTrace]; ring
  · have h := Real.sqrt_nonneg (max 0.1 (traceOver2 a d * traceOver2 a d - covD a b d))
    simp only [eigenValue1, eigenValue2, term2]
    linarith

/-- Helper: the dot product of a scaled eigenvector pair is zero, because the
second eigenvector is the 90 degree rotation of the first. -/
theorem dot2_scaled_eigenvectors (a b e1 s1 s2 t1 t2 : ℝ) :
    dot2 (scale2 (scale2 (eigenVector1v a b e1) s1) t1)
      (scale2 (scale2 (eigenVector2v a b e1) s2) t2) = 0 := by
  simp only [dot2, scale2, eigenVector2v]
  ring

/-- C3: each basis vector is the corresponding eigenvector scaled by
`splatScale * min(sqrt8 * sqrt(eigenValue), maxScreenSpaceSplatSize)`, with
`eigenVector1 = normalize(b, eigenValue1 - a)` and `eigenVector2` its 90 degree
rotation; consequently the two basis vectors are orthogonal, both for arbitrary
eigenvalue pairs and for the output of the full projection tail. -/
theorem basis_vectors_scaled_eigenvectors_orthogonal
    (pc : Bool) (a b d e1 e2 ss msss : ℝ) :
    basisVector (eigenVector1v a b e1) ss e1 msss =
      scale2 (eigenVector1v a b e1) (ss * min (sqrt8 * Real.sqrt e1) msss) ∧
    basisVector (eigenVector2v a b e1) ss e2 msss =
      scale2 (eigenVector2v a b e1) (ss * min (sqrt8 * Real.sqrt e2) msss) ∧
    dot2 (basisVector (eigenVector1v a b e1) ss e1 msss)
      (basisVector (eigenVector2v a b e1) ss e2 msss) = 0 ∧
    (projectBasis pc a b d ss msss).map (fun q => dot2 q.1 q.2) =
      (projectBasis pc a b d ss msss).map (fun _ => 0) := by
  refine ⟨?_, ?_, ?_, ?_⟩
  · simp only [basisVector, scale2, Prod.mk.injEq]
    exact ⟨by ring, by ring⟩
  · simp only [basisVector, scale2, Prod.mk.injEq]
    exact ⟨by ring, by ring⟩
  · exact dot2_scaled_eigenvectors a b e1 ss ss _ _
  · by_cases h : (projectedEigenvalues pc a b d).2 ≤ 0
    · simp [projectBasis, h]
    · simp [projectBasis, h, basisVector]
      exact dot2_scaled_eigenvectors a b _ ss ss _ _

/-- C6: in point-cloud mode both eigenvalues are overridden to the fixed
constant `0.2` regardless of the input covariance entries, and the two emitted
basis vectors have equal (squared) magnitude, giving a uniform circular
footprint. -/
theorem point_cloud_mode_uniform_footprint (a b d ss msss : ℝ) :
    projectedEigenvalues true a b d = (0.2, 0.2) ∧
    (projectBasis true a b d ss msss).map (fun q => sqLen q.1) =
      (projectBasis true a b d ss msss).map (fun q => sqLen q.2) := by
  refine ⟨rfl, ?_⟩
  norm_num [projectBasis, projectedEigenvalues, sqLen, basisVector, scale2,
    eigenVector2v]
  ring

/-- C7: outside point-cloud mode, whenever the eigen-solve yields
`eigenValue2 <= 0` the projector returns early and emits no quad. -/
theorem degenerate_eigenvalue_discards (a b d ss msss : ℝ)
    (h : eigenValue2 a b d ≤ 0) :
    projectBasis false a b d ss msss = none := by
  have h2 : (projectedEigenvalues false a b d).2 ≤ 0 := by
    simpa [projectedEigenvalues] using h
  simp [projectBasis, h2]

/-- Helper: a concrete symmetric input on which the eigen-solve yields exactly
the minor eigenvalue -0.01 from the scenario in the spec. -/
theorem eigenValue2_sample : eigenValue2 0.49 0.5 0.49 = -0.01 := by
  rw [eigenValue2, term2]
  have h1 : max (0.1 : ℝ)
      (traceOver2 0.49 0.49 * traceOver2 0.49 0.49 - covD 0.49 0.5 0.49) = 0.25 := by
    rw [traceOver2, covTrace, covD]
    norm_num
  rw [h1, show (0.25 : ℝ) = 0.5 ^ 2 by norm_num,
    Real.sqrt_sq (by norm_num : (0 : ℝ) ≤ 0.5), traceOver2, covTrace]
  norm_num

/-- Witness for C7: the concrete scenario `eigenValue2 = -0.01` leads to
Discard; no quad is produced. -/
theorem degenerate_eigenvalue_discards_witness :
    eigenValue2 0.49 0.5 0.49 = -0.01 ∧
    projectBasis false 0.49 0.5 0.49 1 2048 = none :=
  ⟨eigenValue2_sample,
   degenerate_eigenvalue_discards 0.49 0.5 0.49 1 2048
     (by rw [eigenValue2_sample]; norm_num)⟩

/-- Counterexample for C1: reading the displayed Jacobian in the standard
row-major convention, the claimed formula
`cov2D = transpose(T) * Vrk * T` with `T = transpose(modelViewUpper3x3) * J`
disagrees with the code on the retained upper-left block: at
`focal = (1,1)`, `viewCenter = (1,0,1)`, `modelView = I`, `Vrk = I` the code
produces the entry 2 where the claimed formula produces 1. The GLSL `mat3`
constructor is column-major, so the matrix the code builds is the transpose of
the displayed one. -/
theorem jacobian_row_major_counterexample :
    cov2Dm 1 1 (Jpersp 1 1 1 0 1) 0 0 = 2 ∧
    cov2Dm 1 1 (specJpersp 1 1 1 0 1) 0 0 = 1 ∧
    cov2Dm 1 1 (Jpersp 1 1 1 0 1) 0 0 ≠
      cov2Dm 1 1 (specJpersp 1 1 1 0 1) 0 0 := by
  have h1 : cov2Dm 1 1 (Jpersp 1 1 1 0 1) 0 0 = 2 := by
    simp [cov2Dm, Tmat, Jpersp, glslMat3, Matrix.mul_apply, Fin.sum_univ_three,
      Matrix.transpose_apply, Matrix.vecHead, Matrix.vecTail, Function.comp]
    norm_num
  have h2 : cov2Dm 1 1 (specJpersp 1 1 1 0 1) 0 0 = 1 := by
    norm_num [cov2Dm, Tmat, specJpersp, Matrix.mul_apply, Fin.sum_univ_three,
      Matrix.transpose_apply, Matrix.vecHead, Matrix.vecTail, Function.comp]
  exact ⟨h1, h2, by rw [h1, h2]; norm_num⟩

/-- C1 (amended): the GLSL `mat3` constructor is column-major, so the
perspective Jacobian the code builds is the transpose of the matrix the spec
displays; the orthographic matrix is `diag(orthoZoom, orthoZoom, 0)` as
specified; and for every input `Vrk` the computed
`cov2Dm = transpose(T) * Vrk * T` with `T = transpose(modelViewUpper3x3) * J`
equals `(Jrow * W3) * Vrk * transpose(Jrow * W3)` where `Jrow` is the displayed
row-major Jacobian (or the orthographic diagonal) and `W3` the model-view
upper 3x3 — the mathematically correct projection of the covariance. -/
theorem cov2D_projection_characterization (fx fy vx vy vz zoom : ℝ)
    (M Vrk : Matrix (Fin 3) (Fin 3) ℝ) :
    Jpersp fx fy vx vy vz = (specJpersp fx fy vx vy vz)ᵀ ∧
    Jortho zoom = Matrix.diagonal ![zoom, zoom, 0] ∧
    cov2Dm M Vrk (Jpersp fx fy vx vy vz) =
      (specJpersp fx fy vx vy vz * M) * Vrk * (specJpersp fx fy vx vy vz * M)ᵀ ∧
    cov2Dm M Vrk (Jortho zoom) =
      (Matrix.diagonal ![zoom, zoom, 0] * M) * Vrk *
        (Matrix.diagonal ![zoom, zoom, 0] * M)ᵀ := by
  have key : ∀ J : Matrix (Fin 3) (Fin 3) ℝ,
      cov2Dm M Vrk Jᵀ = (J * M) * Vrk * (J * M)ᵀ := by
    intro J
    simp only [cov2Dm, Tmat, Matrix.transpose_mul, Matrix.transpose_transpose,
      Matrix.mul_assoc]
  have h1 : Jpersp fx fy vx vy vz = (specJpersp fx fy vx vy vz)ᵀ := by
    ext i j
    fin_cases i <;> fin_cases j <;>
      simp [Jpersp, specJpersp, glslMat3, Matrix.transpose_apply, Matrix.vecHead,
        Matrix.vecTail, Function.comp] <;> ring
  have h2 : Jortho zoom = Matrix.diagonal ![zoom, zoom, 0] := by
    ext i j
    fin_cases i <;> fin_cases j <;>
      simp [Jortho, glslMat3, Matrix.diagonal, Matrix.transpose_apply,
        Matrix.vecHead, Matrix.vecTail, Function.comp]
  refine ⟨h1, h2, ?_, ?_⟩
  · rw [h1, key]
  · rw [h2, ← Matrix.diagonal_transpose, key, Matrix.diagonal_transpose]

/-- C5: with `antialiasedFlag` set, the projector multiplies alpha by
`sqrt(max(detOrig / detBlur, 0))`, where `detOrig` is the 2x2 determinant before
adding `kernel2DSize` to both diagonal entries and `detBlur` the determinant
after, and returns early (Discard) exactly when the compensated alpha falls
below `minAlpha`; without the flag, `kernel2DSize` is still added to both
diagonal entries and alpha is unchanged. -/
theorem antialias_dilation_and_compensation (k mA c00 c01 c11 alpha : ℝ) :
    dilateCov true k mA (c00, c01, c11) alpha =
      (if alpha * Real.sqrt (max ((c00 * c11 - c01 * c01) /
            ((c00 + k) * (c11 + k) - c01 * c01)) 0) < mA then none
       else some ((c00 + k, c01, c11 + k),
         alpha * Real.sqrt (max ((c00 * c11 - c01 * c01) /
           ((c00 + k) * (c11 + k) - c01 * c01)) 0))) ∧
    (dilateCov true k mA (c00, c01, c11) alpha = none ↔
      alpha * Real.sqrt (max ((c00 * c11 - c01 * c01) /
        ((c00 + k) * (c11 + k) - c01 * c01)) 0) < mA) ∧
    dilateCov false k mA (c00, c01, c11) alpha =
      some ((c00 + k, c01, c11 + k), alpha) := by
  refine ⟨?_, ?_, ?_⟩
  · simp only [dilateCov, if_true]
  · simp only [dilateCov, if_true]
    split_ifs with h <;> simp [h]
  · simp [dilateCov]

/-- Counterexample for C4: the claim asserts that a pixel at squared local
distance exactly 8.0 is discarded, but the shader condition `A > 8.0` is strict,
so the concrete pixel `(2, 2)` with `distSq = 8` is kept. -/
theorem discard_at_exactly_eight_counterexample :
    dot2 (2, 2) (2, 2) = 8 ∧ fragMain stOff ((1, 1, 1), 1) (2, 2) ≠ none := by
  constructor
  · norm_num [dot2]
  · norm_num [fragMain, finalPos, stOff, dot2]
    exact Option.some_ne_none _

/-- C4 (amended): a pixel is discarded exactly when the squared local distance
of its (possibly jittered) coordinate strictly exceeds 8.0 — so `distSq = 8.0`
is kept, `distSq = 7.999` is kept — and every non-discarded pixel carries alpha
`exp(-0.5 * distSq) * opacity`. -/
theorem discard_iff_distSq_gt_eight (st : EffectState) (c : Vec3 × ℝ) (p : Vec2) :
    (fragMain st c p = none ↔ 8 < dot2 (finalPos st p) (finalPos st p)) ∧
    (fragMain st c p).map Prod.snd =
      (fragMain st c p).map
        (fun _ => Real.exp (-0.5 * dot2 (finalPos st p) (finalPos st p)) * c.2) := by
  unfold fragMain
  by_cases h : dot2 (finalPos st p) (finalPos st p) > 8 <;> simp [h]

/-- C8: the color effects are applied in the fixed order rainbow, pulse, glow,
invert, and the composition is order-dependent: glow with gain 2 followed by
invert sends `(1,0,0)` to `(-1,1,1)` while invert followed by that glow yields
`(0,2,2)`; the order-dependence also holds for the shaders own gain-1.5 glow. -/
theorem effect_order_glow_then_invert (time pulseTime : ℝ) (c : Vec3) :
    colorChain (stAllColorFX time pulseTime) c =
      applyInvertEffect (applyGlowEffect
        (mix3 (applyRainbowEffect c time)
          (scale3 (applyRainbowEffect c time) (applyPulseEffect pulseTime)) 0.5)) ∧
    colorChain stGlowInvert c = applyInvertEffect (applyGlowEffect c) ∧
    applyInvertEffect (glowWithGain 2 (1, 0, 0)) = (-1, 1, 1) ∧
    glowWithGain 2 (applyInvertEffect (1, 0, 0)) = (0, 2, 2) ∧
    applyInvertEffect (glowWithGain 2 (1, 0, 0)) ≠
      glowWithGain 2 (applyInvertEffect (1, 0, 0)) ∧
    applyInvertEffect (applyGlowEffect (1, 0, 0)) ≠
      applyGlowEffect (applyInvertEffect (1, 0, 0)) := by
  refine ⟨?_, ?_, ?_, ?_, ?_, ?_⟩ <;>
    norm_num [colorChain, stAllColorFX, stGlowInvert, applyInvertEffect,
      applyGlowEffect, glowWithGain, scale3, Prod.ext_iff]

/-- C9: the positional jitter adds `positionOffset.xy` times a square wave to
the local coordinate; the wave only takes the values `+1` and `-1` and
alternates discontinuously (at frequency 15: it is `+1` at time 0, `-1` at time
1/30, `+1` again at time 2/30). -/
theorem position_jitter_square_wave (p : Vec2) (t : ℝ) (off : Vec3) :
    applyPositionEffect p t off =
      (p.1 + off.1 * squareWave t, p.2 + off.2.1 * squareWave t) ∧
    (squareWave t = 1 ∨ squareWave t = -1) ∧
    squareWave 0 = 1 ∧ squareWave (1 / 30) = -1 ∧ squareWave (2 / 30) = 1 := by
  refine ⟨rfl, ?_, ?_, ?_, ?_⟩
  · unfold squareWave; split_ifs <;> norm_num
  · norm_num [squareWave]
  · have hf : Int.fract ((1 / 30 : ℝ) * 15.0) = 1 / 2 := by
      rw [show ((1 / 30 : ℝ) * 15.0) = 1 / 2 by norm_num]
      exact Int.fract_eq_self.mpr ⟨by norm_num, by norm_num⟩
    rw [squareWave, hf]
    norm_num
  · have hf : Int.fract ((2 / 30 : ℝ) * 15.0) = 0 := by
      rw [show ((2 / 30 : ℝ) * 15.0) = 1 by norm_num]
      exact Int.fract_one
    rw [squareWave, hf]
    norm_num

/-- C10: the four color effects only modify the RGB components — the emitted
alpha of a non-discarded pixel equals `exp(-0.5 * dot(p,p)) * opacity` and is
identical to the alpha emitted with all four color-effect flags cleared. -/
theorem color_effects_preserve_alpha (st : EffectState) (c : Vec3 × ℝ) (p : Vec2) :
    (fragMain st c p).map Prod.snd = (fragMain (clearColorFX st) c p).map Prod.snd ∧
    (fragMain st c p).map Prod.snd =
      (fragMain st c p).map
        (fun _ => Real.exp (-0.5 * dot2 (finalPos st p) (finalPos st p)) * c.2) := by
  have hfp : finalPos (clearColorFX st) p = finalPos st p := by
    simp [finalPos, clearColorFX]
  unfold fragMain
  rw [hfp]
  by_cases h : dot2 (finalPos st p) (finalPos st p) > 8 <;> simp [h]

end GaussianSplats3D
